import Mathlib

/-!
Shallow embedding of the live-location session manager of this repository
(`live_location.py`).  Coordinates, timestamps and durations are modelled as
rationals (timestamps and durations in seconds); the Python `dict` keyed by
`user_id` is modelled as an association list with dict semantics
(`storeInsert` replaces in place, `storeErase` removes the entry,
`storeLookup` finds the entry).  The source compares
`(lat_diff ** 2 + lon_diff ** 2) ** 0.5 >= threshold`; over the rationals we
use the equivalent squared comparison, justified against `Real.sqrt` by
`moved_significantly_iff_sqrt` below.
-/

/-- Embeds the `LiveLocationSession` dataclass of `live_location.py`. -/
structure LiveLocationSession where
  user_id : Int
  username : String
  chat_id : Int
  last_update : ℚ
  last_latitude : ℚ
  last_longitude : ℚ
  message_count : Nat
  is_active : Bool
deriving DecidableEq, Repr

/-- The session store: Python `Dict[int, LiveLocationSession]`. -/
abbrev SessionStore := List (Int × LiveLocationSession)

/-- Dict lookup: `self.active_sessions.get(user_id)` / `user_id in self.active_sessions`. -/
def storeLookup (k : Int) : SessionStore → Option LiveLocationSession
  | [] => none
  | (k1, v) :: rest => if k1 = k then some v else storeLookup k rest

/-- Dict assignment `self.active_sessions[user_id] = session`: replace in place
if the key is present, otherwise append. -/
def storeInsert (k : Int) (v : LiveLocationSession) : SessionStore → SessionStore
  | [] => [(k, v)]
  | (k1, v1) :: rest =>
      if k1 = k then (k, v) :: rest else (k1, v1) :: storeInsert k v rest

/-- Dict deletion `del self.active_sessions[user_id]` (for a dict-shaped store
the one entry with that key is removed). -/
def storeErase (k : Int) (l : SessionStore) : SessionStore :=
  l.filter (fun p => decide (p.1 ≠ k))

/-- The key set of the store. -/
def storeKeys (l : SessionStore) : List Int := l.map (fun p => p.1)

/-- Embeds `LiveLocationManager`: the mutable state is the sessions dict;
`update_interval` and `min_distance_threshold` are the constants set in
`__init__` and never changed, modelled as the definitions below. -/
structure LiveLocationManager where
  active_sessions : SessionStore
deriving DecidableEq, Repr

/-- The constant `self.update_interval = timedelta(minutes=10)`, in seconds. -/
def update_interval : ℚ := 600

/-- The constant `self.min_distance_threshold = 0.001`  (degrees). -/
def min_distance_threshold : ℚ := 0.001

/-- Embeds `LiveLocationManager.start_session`: unconditionally stores a fresh
session with `last_update = now` (`datetime.now()` passed explicitly),
`message_count = 0`, `is_active = True`. -/
def start_session (m : LiveLocationManager) (user_id : Int) (username : String)
    (chat_id : Int) (latitude longitude : ℚ) (now : ℚ) : LiveLocationManager :=
  { active_sessions :=
      storeInsert user_id
        { user_id := user_id
          username := username
          chat_id := chat_id
          last_update := now
          last_latitude := latitude
          last_longitude := longitude
          message_count := 0
          is_active := true } m.active_sessions }

/-- Embeds `LiveLocationManager.update_location`.  Returns the new manager
plus the tuple `(should_send_fact, moved_significantly)` the Python method
returns.  The Python code mutates the session in place only inside
`if should_send_fact:`; here that is the `storeInsert` branch.  The source's
`distance_moved = (lat_diff ** 2 + lon_diff ** 2) ** 0.5 >= threshold` is
expressed as the equivalent squared comparison (see
`moved_significantly_iff_sqrt`). -/
def update_location (m : LiveLocationManager) (user_id : Int)
    (latitude longitude : ℚ) (now : ℚ) : LiveLocationManager × Bool × Bool :=
  match storeLookup user_id m.active_sessions with
  | none => (m, false, false)
  | some session =>
      let lat_diff : ℚ := |latitude - session.last_latitude|
      let lon_diff : ℚ := |longitude - session.last_longitude|
      let time_passed : Bool := decide (update_interval ≤ now - session.last_update)
      let moved_significantly : Bool :=
        decide (min_distance_threshold ^ 2 ≤ lat_diff ^ 2 + lon_diff ^ 2)
      let should_send_fact : Bool := time_passed && moved_significantly
      let new_manager : LiveLocationManager :=
        if should_send_fact then
          { active_sessions :=
              storeInsert user_id
                { session with
                    last_update := now
                    last_latitude := latitude
                    last_longitude := longitude
                    message_count := session.message_count + 1 } m.active_sessions }
        else m
      (new_manager, should_send_fact, moved_significantly)

/-- Embeds `LiveLocationManager.stop_session`: if present, the session is
flagged inactive and deleted (net store effect: the entry is removed), and
`True` is returned; otherwise `False`. -/
def stop_session (m : LiveLocationManager) (user_id : Int) :
    LiveLocationManager × Bool :=
  match storeLookup user_id m.active_sessions with
  | some _ => ({ active_sessions := storeErase user_id m.active_sessions }, true)
  | none => (m, false)

/-- Embeds `LiveLocationManager.get_session`. -/
def get_session (m : LiveLocationManager) (user_id : Int) :
    Option LiveLocationSession :=
  storeLookup user_id m.active_sessions

/-- Embeds `LiveLocationManager.get_active_sessions_count`. -/
def get_active_sessions_count (m : LiveLocationManager) : Nat :=
  m.active_sessions.length

/-- Embeds `LiveLocationManager.cleanup_inactive_sessions`: collects the user
ids whose sessions satisfy `now - session.last_update > max_age` (with
`max_age = timedelta(hours=max_age_hours)`, in seconds), stops each of them,
and returns the length of the collected list. -/
def cleanup_inactive_sessions (m : LiveLocationManager) (now : ℚ)
    (max_age_hours : ℚ) : LiveLocationManager × Nat :=
  let max_age : ℚ := max_age_hours * 3600
  let inactive : List Int :=
    (m.active_sessions.filter
        (fun p => decide (max_age < now - p.2.last_update))).map (fun p => p.1)
  (inactive.foldl (fun mgr uid => (stop_session mgr uid).1) m, inactive.length)

/-- Embeds the update branch of `handle_live_location` (the `else` arm): it
first calls `update_location`, and only afterwards, when `should_send_fact`
is true, fetches a fact (`get_place_fact`, an external collaborator modelled
by its result `fetched_fact`).  The returned boolean records whether a fact
message was actually delivered: on fetch failure (`None`) an apology is shown
and no fact is sent, but the session state mutated by `update_location` is
not rolled back. -/
def handle_update_branch (m : LiveLocationManager) (user_id : Int)
    (latitude longitude : ℚ) (now : ℚ) (fetched_fact : Option String) :
    LiveLocationManager × Bool :=
  let r := update_location m user_id latitude longitude now
  if r.2.1 then (r.1, fetched_fact.isSome) else (r.1, false)

/-- Lifecycle calls for a single user (claim C4's sequences). -/
inductive UserOp where
  | start (username : String) (chat_id : Int) (latitude longitude now : ℚ)
  | update (latitude longitude now : ℚ)
  | stop
deriving DecidableEq, Repr

/-- Applies one lifecycle call for the fixed user. -/
def apply_user_op (m : LiveLocationManager) (user_id : Int) :
    UserOp → LiveLocationManager
  | .start username chat_id latitude longitude now =>
      start_session m user_id username chat_id latitude longitude now
  | .update latitude longitude now =>
      (update_location m user_id latitude longitude now).1
  | .stop => (stop_session m user_id).1

/-- Applies a sequence of lifecycle calls for the fixed user. -/
def apply_user_ops (m : LiveLocationManager) (user_id : Int)
    (ops : List UserOp) : LiveLocationManager :=
  ops.foldl (fun mgr op => apply_user_op mgr user_id op) m

/-- Modelled from the claim's wording (C4): whether the most recent of the
calls in the sequence is a `start` or an `update`, not a `stop`. -/
def mostRecentCallIsStartOrUpdate (ops : List UserOp) : Bool :=
  match ops.getLast? with
  | some (.start _ _ _ _ _) => true
  | some (.update _ _ _) => true
  | some .stop => false
  | none => false

/-- Step function of session existence for one lifecycle call: a start makes
the session exist, a stop removes it, an update never changes existence. -/
def aliveStep (b : Bool) : UserOp → Bool
  | .start _ _ _ _ _ => true
  | .update _ _ _ => b
  | .stop => false

/-- Whether, starting from no session, the session exists after the sequence:
there is a `start` with no later `stop`. -/
def sessionAlive (ops : List UserOp) : Bool :=
  ops.foldl aliveStep false

/-- Manager-level operations, for reachable-state invariants (claim C10). -/
inductive MgrOp where
  | start (user_id : Int) (username : String) (chat_id : Int)
      (latitude longitude now : ℚ)
  | update (user_id : Int) (latitude longitude now : ℚ)
  | stop (user_id : Int)
  | cleanup (now max_age_hours : ℚ)

/-- Applies one manager-level operation. -/
def apply_mgr_op (m : LiveLocationManager) : MgrOp → LiveLocationManager
  | .start user_id username chat_id latitude longitude now =>
      start_session m user_id username chat_id latitude longitude now
  | .update user_id latitude longitude now =>
      (update_location m user_id latitude longitude now).1
  | .stop user_id => (stop_session m user_id).1
  | .cleanup now max_age_hours => (cleanup_inactive_sessions m now max_age_hours).1

/-- Runs a sequence of manager-level operations from the freshly constructed
manager (`__init__`: empty dict). -/
def run_mgr_ops (ops : List MgrOp) : LiveLocationManager :=
  ops.foldl apply_mgr_op { active_sessions := [] }

/-- Fixture: a manager holding one session for user 42, started at time 0 at
coordinates (0, 0). -/
def mFix : LiveLocationManager :=
  start_session { active_sessions := [] } 42 "alice" 7 0 0 0

/-- The session stored in `mFix`. -/
def sFix : LiveLocationSession :=
  { user_id := 42, username := "alice", chat_id := 7, last_update := 0
    last_latitude := 0, last_longitude := 0, message_count := 0
    is_active := true }

/-- A sequence of `update_location` calls for a fixed user, as
`(latitude, longitude, now)` triples. -/
def apply_location_updates (m : LiveLocationManager) (user_id : Int) :
    List (ℚ × ℚ × ℚ) → LiveLocationManager
  | [] => m
  | (latitude, longitude, now) :: rest =>
      apply_location_updates
        (update_location m user_id latitude longitude now).1 user_id rest

/-- Whether some call in a sequence of `update_location` calls returns
`should_send_fact = true`. -/
def any_notify (m : LiveLocationManager) (user_id : Int) :
    List (ℚ × ℚ × ℚ) → Bool
  | [] => false
  | (latitude, longitude, now) :: rest =>
      let r := update_location m user_id latitude longitude now
      r.2.1 || any_notify r.1 user_id rest

/-- The store-key consistency invariant of claim C10: every entry maps its
key to a session whose `user_id` equals that key. -/
def keys_consistent (l : SessionStore) : Prop :=
  ∀ p ∈ l, p.2.user_id = p.1

/-- Fixture: a two-session store, user 1 last updated at time 0 and user 2
last updated at time 700. -/
def mTwo : LiveLocationManager :=
  { active_sessions :=
      [(1, { user_id := 1, username := "bob", chat_id := 5, last_update := 0
             last_latitude := 0, last_longitude := 0, message_count := 0
             is_active := true }),
       (2, { user_id := 2, username := "carol", chat_id := 6, last_update := 700
             last_latitude := 3, last_longitude := 4, message_count := 2
             is_active := true })] }

/-! ### Store lemmas -/

theorem storeLookup_insert_self (k : Int) (v : LiveLocationSession)
    (l : SessionStore) : storeLookup k (storeInsert k v l) = some v := by
  induction l with
  | nil => simp [storeInsert, storeLookup]
  | cons q rest ih =>
      obtain ⟨k1, v1⟩ := q
      by_cases hk : k1 = k
      · simp [storeInsert, storeLookup, hk]
      · simp [storeInsert, storeLookup, hk, ih]

theorem storeKeys_insert_of_lookup (k : Int) (v v1 : LiveLocationSession)
    (l : SessionStore) (h : storeLookup k l = some v) :
    storeKeys (storeInsert k v1 l) = storeKeys l := by
  induction l with
  | nil => simp [storeLookup] at h
  | cons q rest ih =>
      obtain ⟨k1, v1q⟩ := q
      by_cases hk : k1 = k
      · simp [storeInsert, storeKeys, hk]
      · simp only [storeLookup, hk, if_false, if_neg hk] at h
        have ihh := ih h
        simp only [storeKeys] at ihh
        simp [storeInsert, storeKeys, hk, ihh]

theorem storeLookup_erase_self (k : Int) (l : SessionStore) :
    storeLookup k (storeErase k l) = none := by
  induction l with
  | nil => rfl
  | cons q rest ih =>
      obtain ⟨k1, v1⟩ := q
      by_cases hk : k1 = k
      · simpa [storeErase, List.filter, hk] using ih
      · simpa [storeErase, List.filter, hk, storeLookup] using ih

theorem storeErase_of_lookup_none (k : Int) (l : SessionStore)
    (h : storeLookup k l = none) : storeErase k l = l := by
  induction l with
  | nil => rfl
  | cons q rest ih =>
      obtain ⟨k1, v1⟩ := q
      by_cases hk : k1 = k
      · simp [storeLookup, hk] at h
      · simp only [storeLookup, if_neg hk] at h
        simp [storeErase, List.filter, hk] at ih ⊢
        exact ih h

theorem mem_storeInsert (p : Int × LiveLocationSession) (k : Int)
    (v : LiveLocationSession) (l : SessionStore) (h : p ∈ storeInsert k v l) :
    p = (k, v) ∨ p ∈ l := by
  induction l with
  | nil => simpa [storeInsert] using h
  | cons q rest ih =>
      obtain ⟨k1, v1⟩ := q
      by_cases hk : k1 = k
      · simp only [storeInsert, if_pos hk, List.mem_cons] at h
        rcases h with h | h
        · exact Or.inl h
        · exact Or.inr (List.mem_cons_of_mem _ h)
      · simp only [storeInsert, if_neg hk, List.mem_cons] at h
        rcases h with h | h
        · exact Or.inr (by simp [h])
        · rcases ih h with h2 | h2
          · exact Or.inl h2
          · exact Or.inr (List.mem_cons_of_mem _ h2)

theorem storeLookup_mem (k : Int) (v : LiveLocationSession) (l : SessionStore)
    (h : storeLookup k l = some v) : (k, v) ∈ l := by
  induction l with
  | nil => simp [storeLookup] at h
  | cons q rest ih =>
      obtain ⟨k1, v1⟩ := q
      by_cases hk : k1 = k
      · simp only [storeLookup, if_pos hk, Option.some.injEq] at h
        subst hk; subst h; exact List.mem_cons_self _ _
      · simp only [storeLookup, if_neg hk] at h
        exact List.mem_cons_of_mem _ (ih h)

theorem stop_session_fst (m : LiveLocationManager) (uid : Int) :
    (stop_session m uid).1.active_sessions = storeErase uid m.active_sessions := by
  cases h : storeLookup uid m.active_sessions with
  | none => simp [stop_session, h, storeErase_of_lookup_none uid _ h]
  | some s => simp [stop_session, h]

/-! ### The squared distance comparison agrees with the source's sqrt form -/

theorem moved_significantly_iff_sqrt (t a b : ℚ) (ht : 0 < t) :
    (t ^ 2 ≤ |a| ^ 2 + |b| ^ 2) ↔
      ((t : ℝ) ≤ Real.sqrt ((a : ℝ) ^ 2 + (b : ℝ) ^ 2)) := by
  rw [Real.le_sqrt' (by exact_mod_cast ht), sq_abs, sq_abs]
  constructor
  · intro h; exact_mod_cast h
  · intro h; exact_mod_cast h

/-! ### Behaviour of `update_location` -/

theorem update_location_snd_eq (m : LiveLocationManager) (uid : Int)
    (lat lon now : ℚ) (s : LiveLocationSession)
    (h : storeLookup uid m.active_sessions = some s) :
    (update_location m uid lat lon now).2.1 =
      (decide (update_interval ≤ now - s.last_update) &&
        decide (min_distance_threshold ^ 2 ≤
          |lat - s.last_latitude| ^ 2 + |lon - s.last_longitude| ^ 2)) := by
  simp [update_location, h]

theorem not_notify_fst_eq (m : LiveLocationManager) (uid : Int)
    (lat lon now : ℚ)
    (h : (update_location m uid lat lon now).2.1 = false) :
    (update_location m uid lat lon now).1 = m := by
  cases hl : storeLookup uid m.active_sessions with
  | none => simp [update_location, hl]
  | some s =>
      rw [update_location_snd_eq m uid lat lon now s hl] at h
      have hp : ¬(update_interval ≤ now - s.last_update ∧
          min_distance_threshold ^ 2 ≤
            (lat - s.last_latitude) ^ 2 + (lon - s.last_longitude) ^ 2) := by
        intro hc
        have hT : (decide (update_interval ≤ now - s.last_update) &&
            decide (min_distance_threshold ^ 2 ≤
              |lat - s.last_latitude| ^ 2 + |lon - s.last_longitude| ^ 2)) = true := by
          simp [sq_abs, hc.1, hc.2]
        rw [h] at hT
        exact Bool.false_ne_true hT
      simp [update_location, hl, hp]

theorem notify_active_sessions_eq (m : LiveLocationManager) (uid : Int)
    (lat lon now : ℚ) (s : LiveLocationSession)
    (h : storeLookup uid m.active_sessions = some s)
    (hn : (update_location m uid lat lon now).2.1 = true) :
    (update_location m uid lat lon now).1.active_sessions =
      storeInsert uid
        { s with
            last_update := now
            last_latitude := lat
            last_longitude := lon
            message_count := s.message_count + 1 } m.active_sessions := by
  rw [update_location_snd_eq m uid lat lon now s h] at hn
  simp only [Bool.and_eq_true, decide_eq_true_eq, sq_abs] at hn
  simp [update_location, h, hn.1, hn.2]

/-- C1: for an existing session, `update_location` returns
`should_send_fact = true` exactly when the planar distance
`sqrt((lat - last_latitude)^2 + (lon - last_longitude)^2)` from the stored
reference point is at least `min_distance_threshold` AND the time since the
stored timestamp is at least `update_interval`; neither gate alone
suffices. -/
theorem update_location_notify_iff (m : LiveLocationManager) (uid : Int)
    (lat lon now : ℚ) (s : LiveLocationSession)
    (h : storeLookup uid m.active_sessions = some s) :
    (update_location m uid lat lon now).2.1 = true ↔
      ((min_distance_threshold : ℝ) ≤
          Real.sqrt (((lat : ℝ) - (s.last_latitude : ℝ)) ^ 2 +
            ((lon : ℝ) - (s.last_longitude : ℝ)) ^ 2) ∧
        update_interval ≤ now - s.last_update) := by
  have hb := moved_significantly_iff_sqrt min_distance_threshold
      (lat - s.last_latitude) (lon - s.last_longitude)
      (by norm_num [min_distance_threshold])
  have hc1 : ((lat - s.last_latitude : ℚ) : ℝ) =
      (lat : ℝ) - (s.last_latitude : ℝ) := by push_cast; ring
  have hc2 : ((lon - s.last_longitude : ℚ) : ℝ) =
      (lon : ℝ) - (s.last_longitude : ℝ) := by push_cast; ring
  rw [hc1, hc2] at hb
  rw [update_location_snd_eq m uid lat lon now s h]
  simp only [Bool.and_eq_true, decide_eq_true_eq]
  rw [hb]
  exact and_comm

/-- C1 witness: on a fresh session started at time 0 at (0, 0), an update at
time 540 (9 minutes) with latitude displacement 0.001. -/
theorem update_location_notify_iff_witness :
    (update_location mFix 42 (0.001 : ℚ) 0 540).2.1 = true ↔
      ((min_distance_threshold : ℝ) ≤
          Real.sqrt ((((0.001 : ℚ) : ℝ) - (sFix.last_latitude : ℝ)) ^ 2 +
            (((0 : ℚ) : ℝ) - (sFix.last_longitude : ℝ)) ^ 2) ∧
        update_interval ≤ 540 - sFix.last_update) :=
  update_location_notify_iff mFix 42 (0.001 : ℚ) 0 540 sFix (by with_unfolding_all rfl)

/-- C8: for a user with no session, `update_location` returns all-false and
leaves the whole store unmodified (in particular it never creates a
session). -/
theorem update_location_absent (m : LiveLocationManager) (uid : Int)
    (lat lon now : ℚ) (h : storeLookup uid m.active_sessions = none) :
    update_location m uid lat lon now = (m, false, false) := by
  simp [update_location, h]

/-- C8 witness: an update on the empty store. -/
theorem update_location_absent_witness :
    update_location { active_sessions := [] } 42 5 6 1000 =
      ({ active_sessions := [] }, false, false) :=
  update_location_absent { active_sessions := [] } 42 5 6 1000 rfl

/-- C2 counterexample: a session started at time 0; a non-notifying update at
time 60 leaves `last_update` at 0 — it does NOT advance to the current
time 60, contrary to the claim (the code has a single timestamp
`last_update` and touches nothing on the non-notify path). -/
theorem update_no_notify_last_update_not_advanced :
    (update_location mFix 42 0 0 60).2.1 = false ∧
      (storeLookup 42 (update_location mFix 42 0 0 60).1.active_sessions).map
          (fun t => t.last_update) = some 0 ∧
      (0 : ℚ) ≠ 60 := by
  refine ⟨by with_unfolding_all rfl, by with_unfolding_all rfl, by norm_num⟩

/-- C2 (amended): when `update_location` decides `should_send_fact = false`,
the manager is left entirely unchanged — `last_update` (the code's only
timestamp), the coordinates and `message_count` all keep their prior
values. -/
theorem update_no_notify_manager_unchanged (m : LiveLocationManager)
    (uid : Int) (lat lon now : ℚ)
    (h : (update_location m uid lat lon now).2.1 = false) :
    (update_location m uid lat lon now).1 = m :=
  not_notify_fst_eq m uid lat lon now h

/-- C2 witness: the non-notifying update of the counterexample leaves the
manager unchanged. -/
theorem update_no_notify_manager_unchanged_witness :
    (update_location mFix 42 0 0 60).1 = mFix :=
  update_no_notify_manager_unchanged mFix 42 0 0 60 (by with_unfolding_all rfl)

/-- C5: when `update_location` decides `should_send_fact = true`, it stores
the newly reported coordinates, sets `last_update` to the current time, and
increments `message_count` by exactly 1. -/
theorem update_notify_sets_fields (m : LiveLocationManager) (uid : Int)
    (lat lon now : ℚ) (s : LiveLocationSession)
    (h : storeLookup uid m.active_sessions = some s)
    (hn : (update_location m uid lat lon now).2.1 = true) :
    storeLookup uid (update_location m uid lat lon now).1.active_sessions =
      some { s with
               last_update := now
               last_latitude := lat
               last_longitude := lon
               message_count := s.message_count + 1 } := by
  rw [notify_active_sessions_eq m uid lat lon now s h hn]
  exact storeLookup_insert_self _ _ _

/-- C5 witness: a qualifying update at time 660 (11 minutes) with latitude
displacement 0.001 on a fresh session started at time 0: afterwards
`last_update = 660` and `message_count = 0 + 1 = 1`. -/
theorem update_notify_sets_fields_witness :
    storeLookup 42 (update_location mFix 42 (0.001 : ℚ) 0 660).1.active_sessions =
      some { sFix with
               last_update := 660
               last_latitude := (0.001 : ℚ)
               last_longitude := 0
               message_count := sFix.message_count + 1 } :=
  update_notify_sets_fields mFix 42 (0.001 : ℚ) 0 660 sFix (by with_unfolding_all rfl) (by with_unfolding_all rfl)

/-- C3 counterexample: a qualifying update (time 660, latitude displacement
0.001) whose fact fetch fails (`none`): no fact message is delivered, yet
`message_count` has still increased from 0 to 1 and `last_update` has
advanced to 660 — contrary to the claim that a failed fetch leaves the count
and the timestamp untouched. -/
theorem fetch_failure_still_increments_count :
    (handle_update_branch mFix 42 (0.001 : ℚ) 0 660 none).2 = false ∧
      (storeLookup 42
          (handle_update_branch mFix 42 (0.001 : ℚ) 0 660
              none).1.active_sessions).map
          (fun t => t.message_count) = some 1 ∧
      (storeLookup 42
          (handle_update_branch mFix 42 (0.001 : ℚ) 0 660
              none).1.active_sessions).map
          (fun t => t.last_update) = some 660 := by
  refine ⟨by with_unfolding_all rfl, by with_unfolding_all rfl,
    by with_unfolding_all rfl⟩

/-- C3 (amended): the update branch of `handle_live_location` mutates session
state through `update_location` before fetching, so the resulting manager
does not depend on the fetch outcome: on a qualifying update,
`message_count` increments by exactly 1 whether or not the fetch succeeds
(there is no rollback and no earlier retry), and a fact message is delivered
exactly when the fetch succeeded. -/
theorem handle_update_state_independent_of_fetch (m : LiveLocationManager)
    (uid : Int) (lat lon now : ℚ) (fetched : Option String)
    (s : LiveLocationSession)
    (h : storeLookup uid m.active_sessions = some s)
    (hn : (update_location m uid lat lon now).2.1 = true) :
    (handle_update_branch m uid lat lon now fetched).1 =
        (update_location m uid lat lon now).1 ∧
      (storeLookup uid
          (handle_update_branch m uid lat lon now
              fetched).1.active_sessions).map
          (fun t => t.message_count) = some (s.message_count + 1) ∧
      (handle_update_branch m uid lat lon now fetched).2 = fetched.isSome := by
  have h1 : (handle_update_branch m uid lat lon now fetched).1 =
      (update_location m uid lat lon now).1 := by
    simp only [handle_update_branch]
    split <;> rfl
  refine ⟨h1, ?_, ?_⟩
  · rw [h1, notify_active_sessions_eq m uid lat lon now s h hn,
      storeLookup_insert_self]
    rfl
  · simp [handle_update_branch, hn]

/-- C3 witness: the failed-fetch scenario of the counterexample, through the
amended theorem. -/
theorem handle_update_state_independent_of_fetch_witness :
    (handle_update_branch mFix 42 (0.001 : ℚ) 0 660 none).1 =
        (update_location mFix 42 (0.001 : ℚ) 0 660).1 ∧
      (storeLookup 42
          (handle_update_branch mFix 42 (0.001 : ℚ) 0 660
              none).1.active_sessions).map
          (fun t => t.message_count) = some (sFix.message_count + 1) ∧
      (handle_update_branch mFix 42 (0.001 : ℚ) 0 660 none).2 =
        (none : Option String).isSome :=
  handle_update_state_independent_of_fetch mFix 42 (0.001 : ℚ) 0 660 none sFix
    (by with_unfolding_all rfl) (by with_unfolding_all rfl)

/-- C7: starting from a session whose stored reference point is
(`last_latitude`, `last_longitude`), a sequence of updates each of whose
reported position stays strictly within `min_distance_threshold` of that
reference point never returns `should_send_fact = true`, regardless of the
times of the updates — and the reference point never moves during such a
sequence. -/
theorem sub_threshold_updates_never_notify (m : LiveLocationManager)
    (uid : Int) (s : LiveLocationSession) (updates : List (ℚ × ℚ × ℚ))
    (h : storeLookup uid m.active_sessions = some s)
    (hsub : ∀ u ∈ updates,
      (u.1 - s.last_latitude) ^ 2 + (u.2.1 - s.last_longitude) ^ 2 <
        min_distance_threshold ^ 2) :
    any_notify m uid updates = false ∧
      apply_location_updates m uid updates = m := by
  revert hsub
  induction updates with
  | nil => exact fun _ => ⟨rfl, rfl⟩
  | cons u rest ih =>
      intro hsub
      obtain ⟨lat, lon, now⟩ := u
      have hu := hsub (lat, lon, now) (List.mem_cons_self _ _)
      have hmoved : decide (min_distance_threshold ^ 2 ≤
          |lat - s.last_latitude| ^ 2 + |lon - s.last_longitude| ^ 2) = false := by
        simp only [decide_eq_false_iff_not, not_le, sq_abs]
        simpa using hu
      have hshould : (update_location m uid lat lon now).2.1 = false := by
        rw [update_location_snd_eq m uid lat lon now s h, hmoved, Bool.and_false]
      have hfst : (update_location m uid lat lon now).1 = m :=
        not_notify_fst_eq m uid lat lon now hshould
      have hrest := ih (fun v hv => hsub v (List.mem_cons_of_mem _ hv))
      constructor
      · simp only [any_notify, hshould, hfst, Bool.false_or]
        exact hrest.1
      · simp only [apply_location_updates, hfst]
        exact hrest.2

/-- C7 witness: two sub-threshold updates (displacement 0.0005), the second
after an arbitrarily long elapsed time, never notify and leave the manager
unchanged. -/
theorem sub_threshold_updates_never_notify_witness :
    any_notify mFix 42 [((0.0005 : ℚ), 0, 700), (0, (0.0005 : ℚ), 100000)] =
        false ∧
      apply_location_updates mFix 42
        [((0.0005 : ℚ), 0, 700), (0, (0.0005 : ℚ), 100000)] = mFix :=
  sub_threshold_updates_never_notify mFix 42 sFix
    [((0.0005 : ℚ), 0, 700), (0, (0.0005 : ℚ), 100000)]
    (by with_unfolding_all rfl) (by with_unfolding_all decide)

/-- C9: `update_location` never changes the set of tracked users: the key
list of the store after the call equals the key list before it, for every
user id and store state (it mutates fields of an existing entry in place but
never inserts or removes an entry). -/
theorem update_location_preserves_keys (m : LiveLocationManager) (uid : Int)
    (lat lon now : ℚ) :
    storeKeys (update_location m uid lat lon now).1.active_sessions =
      storeKeys m.active_sessions := by
  cases hl : storeLookup uid m.active_sessions with
  | none => simp [update_location, hl]
  | some s =>
      by_cases hn : (update_location m uid lat lon now).2.1 = true
      · rw [notify_active_sessions_eq m uid lat lon now s hl hn]
        exact storeKeys_insert_of_lookup uid s _ m.active_sessions hl
      · have hf : (update_location m uid lat lon now).2.1 = false := by
          revert hn
          cases (update_location m uid lat lon now).2.1 <;> simp
        rw [not_notify_fst_eq m uid lat lon now hf]

/-! ### Session existence across lifecycle sequences -/

theorem update_location_lookup_isSome (m : LiveLocationManager) (uid : Int)
    (lat lon now : ℚ) :
    (storeLookup uid
        (update_location m uid lat lon now).1.active_sessions).isSome =
      (storeLookup uid m.active_sessions).isSome := by
  cases hl : storeLookup uid m.active_sessions with
  | none => simp [update_location, hl]
  | some s =>
      by_cases hn : (update_location m uid lat lon now).2.1 = true
      · rw [notify_active_sessions_eq m uid lat lon now s hl hn,
          storeLookup_insert_self]
        rfl
      · have hf : (update_location m uid lat lon now).2.1 = false := by
          revert hn
          cases (update_location m uid lat lon now).2.1 <;> simp
        rw [not_notify_fst_eq m uid lat lon now hf, hl]

theorem stop_session_lookup_self (m : LiveLocationManager) (uid : Int) :
    storeLookup uid (stop_session m uid).1.active_sessions = none := by
  rw [stop_session_fst]
  exact storeLookup_erase_self uid m.active_sessions

theorem lookup_isSome_after_ops (m : LiveLocationManager) (uid : Int)
    (ops : List UserOp) :
    (storeLookup uid (apply_user_ops m uid ops).active_sessions).isSome =
      ops.foldl aliveStep (storeLookup uid m.active_sessions).isSome := by
  induction ops generalizing m with
  | nil => rfl
  | cons op rest ih =>
      have hstep : apply_user_ops m uid (op :: rest) =
          apply_user_ops (apply_user_op m uid op) uid rest := rfl
      rw [hstep, ih, List.foldl_cons]
      congr 1
      cases op with
      | start u c la lo n =>
          simp [apply_user_op, aliveStep, start_session, storeLookup_insert_self]
      | update la lo n =>
          simp [apply_user_op, aliveStep, update_location_lookup_isSome]
      | stop =>
          simp [apply_user_op, aliveStep, stop_session_lookup_self]

/-- C4 (amended): starting from a store holding no session for the user,
after a finite sequence of start/update/stop calls the store contains a
session for that user iff the sequence contains a `start` with no later
`stop` (`sessionAlive`).  Updates never change existence, so — contrary to
the claim as stated — an update that follows a stop does not recreate the
session even though it is the most recent call. -/
theorem session_exists_iff_alive (m : LiveLocationManager) (uid : Int)
    (ops : List UserOp) (h : storeLookup uid m.active_sessions = none) :
    (storeLookup uid (apply_user_ops m uid ops).active_sessions).isSome =
      sessionAlive ops := by
  rw [lookup_isSome_after_ops, sessionAlive, h]
  rfl

/-- C4 witness: start then stop then update, from the empty store. -/
theorem session_exists_iff_alive_witness :
    (storeLookup 42 (apply_user_ops { active_sessions := [] } 42
        [UserOp.start "bob" 1 0 0 0, UserOp.stop,
         UserOp.update 5 5 900]).active_sessions).isSome =
      sessionAlive [UserOp.start "bob" 1 0 0 0, UserOp.stop,
        UserOp.update 5 5 900] :=
  session_exists_iff_alive { active_sessions := [] } 42
    [UserOp.start "bob" 1 0 0 0, UserOp.stop, UserOp.update 5 5 900] rfl

/-- C4 counterexample: for the sequence start, stop, update the most recent
call is an update, yet the store holds no session for the user — refuting
"the store contains a session iff the most recent call was a start or an
update, not a stop". -/
theorem most_recent_update_yet_no_session :
    mostRecentCallIsStartOrUpdate
        [UserOp.start "bob" 1 0 0 0, UserOp.stop, UserOp.update 5 5 900] =
        true ∧
      storeLookup 42 (apply_user_ops { active_sessions := [] } 42
          [UserOp.start "bob" 1 0 0 0, UserOp.stop,
           UserOp.update 5 5 900]).active_sessions = none := by
  refine ⟨rfl, by with_unfolding_all rfl⟩

/-! ### Cleanup -/

theorem foldl_stop_active_sessions (ids : List Int) (m : LiveLocationManager) :
    (ids.foldl (fun mgr uid => (stop_session mgr uid).1) m).active_sessions =
      m.active_sessions.filter (fun p => decide (p.1 ∉ ids)) := by
  induction ids generalizing m with
  | nil => simp
  | cons i rest ih =>
      rw [List.foldl_cons, ih, stop_session_fst, storeErase, List.filter_filter]
      apply List.filter_congr
      intro p _
      by_cases h1 : p.1 = i <;> by_cases h2 : p.1 ∈ rest <;> simp [h1, h2]

/-- C6 counterexample: with one tracked session whose `last_update` equals
the current time, `cleanup_inactive_sessions` with `max_age = 0` removes
nothing and returns 0 — not "every currently tracked session" — because the
staleness test `now - last_update > max_age` is strict. -/
theorem cleanup_zero_age_keeps_fresh_session :
    (cleanup_inactive_sessions mFix 0 0).2 = 0 ∧
      storeLookup 42 (cleanup_inactive_sessions mFix 0 0).1.active_sessions =
        some sFix := by
  refine ⟨by with_unfolding_all rfl, by with_unfolding_all rfl⟩

/-- C6 (amended): for a store with no duplicate keys,
`cleanup_inactive_sessions` removes exactly the sessions with
`now - last_update` STRICTLY greater than the max age (i.e. `last_update`
strictly older than `now - maxAge`) and returns their exact count; an empty
store yields 0; and an immediately repeated call at the same instant returns
0.  With `maxAge = 0` only sessions with `last_update` strictly before `now`
are removed — one whose `last_update` equals `now` survives. -/
theorem cleanup_removes_exactly_stale (m : LiveLocationManager)
    (now max_age_hours : ℚ)
    (hnodup : (storeKeys m.active_sessions).Nodup) :
    (cleanup_inactive_sessions m now max_age_hours).2 =
        (m.active_sessions.filter
          (fun p => decide (max_age_hours * 3600 < now - p.2.last_update))).length ∧
      (cleanup_inactive_sessions m now max_age_hours).1.active_sessions =
        m.active_sessions.filter
          (fun p => decide (now - p.2.last_update ≤ max_age_hours * 3600)) ∧
      (cleanup_inactive_sessions { active_sessions := [] } now
          max_age_hours).2 = 0 ∧
      (cleanup_inactive_sessions
          (cleanup_inactive_sessions m now max_age_hours).1 now
          max_age_hours).2 = 0 := by
  simp only [storeKeys] at hnodup
  have hcount : ∀ mm : LiveLocationManager,
      (cleanup_inactive_sessions mm now max_age_hours).2 =
        (mm.active_sessions.filter
          (fun p => decide (max_age_hours * 3600 < now - p.2.last_update))).length := by
    intro mm
    simp [cleanup_inactive_sessions]
  have hstore : (cleanup_inactive_sessions m now max_age_hours).1.active_sessions =
      m.active_sessions.filter
        (fun p => decide (now - p.2.last_update ≤ max_age_hours * 3600)) := by
    simp only [cleanup_inactive_sessions]
    rw [foldl_stop_active_sessions]
    apply List.filter_congr
    intro p hp
    by_cases hst : max_age_hours * 3600 < now - p.2.last_update
    · have hmem : p.1 ∈ (m.active_sessions.filter
          (fun q => decide (max_age_hours * 3600 < now - q.2.last_update))).map
          (fun q => q.1) :=
        List.mem_map_of_mem _ (List.mem_filter.mpr ⟨hp, by simp [hst]⟩)
      simp [hmem, not_le.mpr hst]
    · have hnotmem : p.1 ∉ (m.active_sessions.filter
          (fun q => decide (max_age_hours * 3600 < now - q.2.last_update))).map
          (fun q => q.1) := by
        intro hmem
        obtain ⟨q, hq, hqeq⟩ := List.mem_map.mp hmem
        obtain ⟨hql, hqstale⟩ := List.mem_filter.mp hq
        have hqp : q = p := List.inj_on_of_nodup_map hnodup hql hp hqeq
        rw [hqp] at hqstale
        simp only [decide_eq_true_eq] at hqstale
        exact hst hqstale
      simp [hnotmem, not_lt.mp hst]
  refine ⟨hcount m, hstore, by rw [hcount]; rfl, ?_⟩
  rw [hcount, hstore, List.filter_filter, List.length_eq_zero]
  apply List.filter_eq_nil_iff.mpr
  intro p hp
  simp only [Bool.and_eq_true, decide_eq_true_eq, not_and]
  intro h1 h2
  linarith

/-- C6 witness: a two-session store (user 1 stale at `last_update = 0`,
user 2 fresh at `last_update = 700`), cleaned at time 700 with max age 0. -/
theorem cleanup_removes_exactly_stale_witness :
    (cleanup_inactive_sessions mTwo 700 0).2 =
        (mTwo.active_sessions.filter
          (fun p => decide ((0 : ℚ) * 3600 < 700 - p.2.last_update))).length ∧
      (cleanup_inactive_sessions mTwo 700 0).1.active_sessions =
        mTwo.active_sessions.filter
          (fun p => decide (700 - p.2.last_update ≤ (0 : ℚ) * 3600)) ∧
      (cleanup_inactive_sessions { active_sessions := [] } 700 0).2 = 0 ∧
      (cleanup_inactive_sessions
          (cleanup_inactive_sessions mTwo 700 0).1 700 0).2 = 0 :=
  cleanup_removes_exactly_stale mTwo 700 0 (by with_unfolding_all decide)

/-! ### The key-consistency invariant of reachable store states -/

theorem keys_consistent_start (m : LiveLocationManager) (uid : Int)
    (username : String) (chat_id : Int) (lat lon now : ℚ)
    (hm : keys_consistent m.active_sessions) :
    keys_consistent
      (start_session m uid username chat_id lat lon now).active_sessions := by
  intro p hp
  rcases mem_storeInsert p uid _ m.active_sessions hp with h | h
  · rw [h]
  · exact hm p h

theorem keys_consistent_update (m : LiveLocationManager) (uid : Int)
    (lat lon now : ℚ) (hm : keys_consistent m.active_sessions) :
    keys_consistent (update_location m uid lat lon now).1.active_sessions := by
  cases hl : storeLookup uid m.active_sessions with
  | none =>
      intro p hp
      simp only [update_location, hl] at hp
      exact hm p hp
  | some s =>
      by_cases hn : (update_location m uid lat lon now).2.1 = true
      · intro p hp
        rw [notify_active_sessions_eq m uid lat lon now s hl hn] at hp
        rcases mem_storeInsert p uid _ m.active_sessions hp with h | h
        · rw [h]
          exact hm (uid, s) (storeLookup_mem uid s _ hl)
        · exact hm p h
      · have hf : (update_location m uid lat lon now).2.1 = false := by
          revert hn
          cases (update_location m uid lat lon now).2.1 <;> simp
        rw [not_notify_fst_eq m uid lat lon now hf]
        exact hm

theorem keys_consistent_stop (m : LiveLocationManager) (uid : Int)
    (hm : keys_consistent m.active_sessions) :
    keys_consistent (stop_session m uid).1.active_sessions := by
  intro p hp
  rw [stop_session_fst] at hp
  exact hm p (List.mem_of_mem_filter hp)

theorem keys_consistent_foldl_stop (ids : List Int) (m : LiveLocationManager)
    (hm : keys_consistent m.active_sessions) :
    keys_consistent
      ((ids.foldl (fun mgr uid => (stop_session mgr uid).1) m).active_sessions) := by
  induction ids generalizing m with
  | nil => exact hm
  | cons i rest ih =>
      rw [List.foldl_cons]
      exact ih _ (keys_consistent_stop m i hm)

theorem keys_consistent_cleanup (m : LiveLocationManager) (now mah : ℚ)
    (hm : keys_consistent m.active_sessions) :
    keys_consistent (cleanup_inactive_sessions m now mah).1.active_sessions := by
  simp only [cleanup_inactive_sessions]
  exact keys_consistent_foldl_stop _ m hm

theorem keys_consistent_run (ops : List MgrOp) (m : LiveLocationManager)
    (hm : keys_consistent m.active_sessions) :
    keys_consistent (ops.foldl apply_mgr_op m).active_sessions := by
  induction ops generalizing m with
  | nil => exact hm
  | cons op rest ih =>
      rw [List.foldl_cons]
      apply ih
      cases op with
      | start uid u c la lo n => exact keys_consistent_start m uid u c la lo n hm
      | update uid la lo n => exact keys_consistent_update m uid la lo n hm
      | stop uid => exact keys_consistent_stop m uid hm
      | cleanup n mah => exact keys_consistent_cleanup m n mah hm

/-- C10: in every store state reachable by a sequence of start, update, stop
and cleanup operations from the freshly constructed manager, every entry
maps its user-id key to a session whose `user_id` equals that key. -/
theorem reachable_store_keys_consistent (ops : List MgrOp) :
    ((run_mgr_ops ops).active_sessions.all
      (fun p => p.2.user_id == p.1)) = true := by
  have hinv : keys_consistent (run_mgr_ops ops).active_sessions :=
    keys_consistent_run ops { active_sessions := [] }
      (fun p hp => absurd hp (List.not_mem_nil p))
  rw [List.all_eq_true]
  intro p hp
  simpa using hinv p hp
